import Mathlib

/-!
# Verification of the AI-Tax-Assistant core

A shallow embedding, in Lean 4, of the branching core of the Tax-Assistant
repository: the guardrail validators (`src/tools/guardrails/validation_tools.py`),
the IT1 and VAT3 computation engines (`src/tools/filing/it1_tools.py`,
`src/tools/filing/vat3_tools.py`), the audit risk pipeline
(`src/tools/audit/risk_analysis_tools.py`, `src/tools/audit/truth_data_tools.py`),
the filing workflow question scheduler
(`src/agents/filing_workflow_agent.py`) and the section-transition logic of
the chainlit front-end (`src/ui/chainlit_app.py`).

Python `float` arithmetic is modelled over `ℚ` (exact rational arithmetic);
all the policy constants of the source (tax bands, VAT rates, relief caps,
risk thresholds) are exactly representable, so the rational model agrees
with the decimal arithmetic the source's comments and docstrings reason in.
Python `int` scores are modelled over `ℕ` (every addend in the score is
non-negative).

The database layer (`db_manager.py`) is modelled as an explicit `TruthDB`
record of pure lookup functions, and the one write the audit pipeline can
perform (`create_audit_case`) is modelled by returning the list of cases the
run persists.
-/

namespace TaxAssistant

/-! ## Python value model

Collected answers are Python dicts whose values are numbers (validated
monetary amounts), strings (everything else) or absent.  `PyVal.none`
stands for an absent entry; the computation engines read every field
through `safe_float`, which sends both an absent entry and the Python
default `0` used at the `dict.get` call sites to `0`. -/

inductive PyVal where
  | none : PyVal
  | num : ℚ → PyVal
  | str : String → PyVal
deriving DecidableEq

/-- Value of a list of decimal digit characters, most significant first. -/
def digitsToNat (cs : List Char) : ℕ :=
  cs.foldl (fun a c => 10 * a + (c.toNat - 48)) 0

/-- Python `float()` restricted to strings of decimal digits and dots (the
image of the cleaning regex in `sanitize_financial_input`): parsing succeeds
iff the string holds at least one digit and at most one dot, and yields the
denoted decimal value.  Any other character makes the parse fail (`none`,
Python `ValueError`). -/
def pyFloatDigits (cs : List Char) : Option ℚ :=
  if cs.count '.' ≤ 1 ∧ cs.any Char.isDigit = true ∧
      cs.all (fun c => c.isDigit || c == '.') = true then
    let ip := cs.takeWhile (fun c => c ≠ '.')
    let fp := (cs.dropWhile (fun c => c ≠ '.')).drop 1
    some (Rat.divInt (digitsToNat ip * 10 ^ fp.length + digitsToNat fp) (10 ^ fp.length))
  else
    Option.none

/-- Python `float()` on a stripped string: an optional sign followed by a
digits-and-dot body.  (Exponent notation and the special words inf/nan do
not occur in any value this repository feeds to `float`; they are outside
the modelled fragment and parse to `none`.) -/
def pyFloat (s : String) : Option ℚ :=
  match s.data with
  | '-' :: rest => (pyFloatDigits rest).map (fun q => -q)
  | '+' :: rest => pyFloatDigits rest
  | cs => pyFloatDigits cs

/-- `safe_float` from `it1_tools.py` / `vat3_tools.py` (both files define the
identical function).  Every call site in the source leaves the `default`
parameter at its default `0.0`, which is therefore fixed here. -/
def safe_float (value : PyVal) : ℚ :=
  match value with
  | .none => 0
  | .num q => q
  | .str s =>
    let v := s.trim
    if v.toLower = "no" ∨ v.toLower = "yes" ∨ v.toLower = "" ∨
        v.toLower = "n" ∨ v.toLower = "y" then 0
    else (pyFloat v).getD 0

/-! ## Truth data model (`truth_data_tools.py`)

The six `get_*` reads of `db_manager.py` are modelled as the pure lookup
functions of a `TruthDB`; the `fetch_*` helpers and `build_wealth_profile`
are transcribed over them. -/

structure BankTxn where
  amount : ℚ
  type : String
  balance : ℚ

structure MpesaTxn where
  amount : ℚ
  transaction_type : String

structure VehicleAsset where
  make : String
  model : String
  estimated_value : ℚ

structure PropertyAsset where
  location : String
  property_type : String
  estimated_value : ℚ

structure ImportRecord where
  value : ℚ

structure TelcoUsage where
  monthly_bill : ℚ

structure TruthDB where
  bank_transactions : String → List BankTxn
  mpesa_transactions : String → List MpesaTxn
  vehicle_assets : String → List VehicleAsset
  property_assets : String → List PropertyAsset
  import_records : String → List ImportRecord
  telco_usage : String → List TelcoUsage

structure BankSummary where
  total_inflows : ℚ
  transaction_count : ℕ
  has_data : Bool

structure MpesaSummary where
  total_received : ℚ
  transaction_count : ℕ
  has_data : Bool

structure VehicleSummary where
  vehicle_count : ℕ
  total_value : ℚ
  has_data : Bool

structure PropertySummary where
  property_count : ℕ
  total_value : ℚ
  has_data : Bool

structure ImportSummary where
  import_count : ℕ
  total_value : ℚ
  has_data : Bool

structure TelcoSummary where
  has_data : Bool

/-- `fetch_bank_data`: empty transaction list gives the no-data summary,
otherwise inflows are the sum of the CREDIT amounts. -/
def fetch_bank_data (db : TruthDB) (kra_pin : String) : BankSummary :=
  let transactions := db.bank_transactions kra_pin
  if transactions.isEmpty then
    ⟨0, 0, false⟩
  else
    ⟨((transactions.filter (fun t => t.type == "CREDIT")).map (fun t => t.amount)).sum,
      transactions.length, true⟩

/-- `fetch_mpesa_data`. -/
def fetch_mpesa_data (db : TruthDB) (kra_pin : String) : MpesaSummary :=
  let transactions := db.mpesa_transactions kra_pin
  if transactions.isEmpty then
    ⟨0, 0, false⟩
  else
    ⟨((transactions.filter (fun t => t.transaction_type == "RECEIVE")).map
        (fun t => t.amount)).sum,
      transactions.length, true⟩

/-- `fetch_vehicle_data`. -/
def fetch_vehicle_data (db : TruthDB) (kra_pin : String) : VehicleSummary :=
  let vehicles := db.vehicle_assets kra_pin
  if vehicles.isEmpty then
    ⟨0, 0, false⟩
  else
    ⟨vehicles.length, (vehicles.map (fun v => v.estimated_value)).sum, true⟩

/-- `fetch_property_data`. -/
def fetch_property_data (db : TruthDB) (kra_pin : String) : PropertySummary :=
  let properties := db.property_assets kra_pin
  if properties.isEmpty then
    ⟨0, 0, false⟩
  else
    ⟨properties.length, (properties.map (fun p => p.estimated_value)).sum, true⟩

/-- `fetch_import_data`. -/
def fetch_import_data (db : TruthDB) (kra_pin : String) : ImportSummary :=
  let imports := db.import_records kra_pin
  if imports.isEmpty then
    ⟨0, 0, false⟩
  else
    ⟨imports.length, (imports.map (fun i => i.value)).sum, true⟩

/-- `fetch_telco_data` (only its `has_data` flag is consumed downstream). -/
def fetch_telco_data (db : TruthDB) (kra_pin : String) : TelcoSummary :=
  ⟨!(db.telco_usage kra_pin).isEmpty⟩

structure WealthProfile where
  bank : BankSummary
  mpesa : MpesaSummary
  vehicles : VehicleSummary
  properties : PropertySummary
  imports : ImportSummary
  telco : TelcoSummary
  has_any_data : Bool

/-- `build_wealth_profile`: aggregate the six sources; `has_any_data` is the
disjunction of the six `has_data` flags. -/
def build_wealth_profile (db : TruthDB) (kra_pin : String) : WealthProfile :=
  let bank_data := fetch_bank_data db kra_pin
  let mpesa_data := fetch_mpesa_data db kra_pin
  let vehicle_data := fetch_vehicle_data db kra_pin
  let property_data := fetch_property_data db kra_pin
  let import_data := fetch_import_data db kra_pin
  let telco_data := fetch_telco_data db kra_pin
  ⟨bank_data, mpesa_data, vehicle_data, property_data, import_data, telco_data,
    bank_data.has_data || mpesa_data.has_data || vehicle_data.has_data ||
      property_data.has_data || import_data.has_data || telco_data.has_data⟩

/-! ## Audit risk engine (`risk_analysis_tools.py`) -/

/-- `calculate_inferred_income`: bank inflows plus mobile-money receipts. -/
def calculate_inferred_income (wealth_profile : WealthProfile) : ℚ :=
  (if wealth_profile.bank.has_data then wealth_profile.bank.total_inflows else 0) +
  (if wealth_profile.mpesa.has_data then wealth_profile.mpesa.total_received else 0)

structure DiscrepancyResult where
  declared_income : ℚ
  inferred_income : ℚ
  discrepancy_amount : ℚ
  discrepancy_percentage : ℚ
  has_discrepancy : Bool

/-- `detect_discrepancy`: the percentage is the guarded
`discrepancy / declared * 100`, with the `declared > 0` guard replaced by the
literal `100` otherwise — the model is total over `ℚ`, no division by zero is
ever performed. -/
def detect_discrepancy (declared inferred : ℚ) : DiscrepancyResult :=
  let discrepancy := inferred - declared
  let discrepancy_percentage := if declared > 0 then discrepancy / declared * 100 else 100
  ⟨declared, inferred, discrepancy, discrepancy_percentage, decide (discrepancy > 0)⟩

/-- `calculate_risk_score`: the running `score` accumulator of the source is
written as the sum of its five `score +=` contributions, capped at 100. -/
def calculate_risk_score (declared inferred : ℚ) (assets : WealthProfile) : ℕ :=
  let discrepancy_percentage : ℚ :=
    if declared > 0 then (inferred - declared) / declared * 100 else 100
  let discrepancy_points : ℕ :=
    if discrepancy_percentage > 200 then 40
    else if discrepancy_percentage > 100 then 30
    else if discrepancy_percentage > 50 then 20
    else if discrepancy_percentage > 20 then 10
    else 0
  let vehicle_points : ℕ :=
    if assets.vehicles.has_data then
      if assets.vehicles.total_value > 20000000 then 25
      else if assets.vehicles.total_value > 10000000 then 15
      else if assets.vehicles.vehicle_count ≥ 2 then 10
      else 0
    else 0
  let property_points : ℕ :=
    if assets.properties.has_data then
      if assets.properties.total_value > 50000000 then 25
      else if assets.properties.total_value > 20000000 then 15
      else if assets.properties.property_count ≥ 3 then 10
      else 0
    else 0
  let import_points : ℕ :=
    if assets.imports.has_data then
      if assets.imports.total_value > 5000000 then 15 else 0
    else 0
  let zero_declared_points : ℕ :=
    if declared = 0 ∧ inferred > 1000000 then 20 else 0
  min (discrepancy_points + vehicle_points + property_points + import_points +
    zero_declared_points) 100

/-- `determine_risk_level`. -/
def determine_risk_level (score : ℕ) : String :=
  if score ≥ 61 then "HIGH"
  else if score ≥ 31 then "MEDIUM"
  else "LOW"

/-- The record `create_audit_case` persists (`db_manager.py`); the
human-readable `reason` string built by `generate_audit_reason` is pure
display formatting and is not modelled. -/
structure AuditCase where
  kra_pin : String
  risk_score : ℕ
  risk_level : String
  declared_income : ℚ
  inferred_income : ℚ

/-- `create_audit_case_if_risky`: the boolean it returns, paired with the
list of cases it writes to the store (one exactly when the level is HIGH). -/
def create_audit_case_if_risky (kra_pin : String) (risk_score : ℕ)
    (risk_level : String) (declared_income inferred_income : ℚ) :
    Bool × List AuditCase :=
  if risk_level == "HIGH" then
    (true, [⟨kra_pin, risk_score, risk_level, declared_income, inferred_income⟩])
  else
    (false, [])

/-- The observable outcome of `run_full_risk_analysis`: the fields of the
returned analysis dict that downstream code reads, plus the audit cases the
run persisted (the write side effect). -/
structure RiskAnalysisOutcome where
  kra_pin : String
  risk_score : ℕ
  risk_level : String
  audit_case_created : Bool
  stored_cases : List AuditCase

/-- `run_full_risk_analysis`: short-circuit when no source has data,
otherwise score, classify, and persist a case exactly when
`create_audit_case_if_risky` does. -/
def run_full_risk_analysis (db : TruthDB) (kra_pin : String)
    (declared_income : ℚ) : RiskAnalysisOutcome :=
  let wealth_profile := build_wealth_profile db kra_pin
  if wealth_profile.has_any_data = false then
    ⟨kra_pin, 0, "LOW", false, []⟩
  else
    let inferred_income := calculate_inferred_income wealth_profile
    let risk_score := calculate_risk_score declared_income inferred_income wealth_profile
    let risk_level := determine_risk_level risk_score
    let created := create_audit_case_if_risky kra_pin risk_score risk_level
      declared_income inferred_income
    ⟨kra_pin, risk_score, risk_level, created.1, created.2⟩

/-- A wealth profile in which no source has data (shared by witnesses). -/
def noDataProfile : WealthProfile :=
  ⟨⟨0, 0, false⟩, ⟨0, 0, false⟩, ⟨0, 0, false⟩, ⟨0, 0, false⟩, ⟨0, 0, false⟩,
    ⟨false⟩, false⟩

/-- A truth-data store with no records at all (shared by witnesses). -/
def emptyTruthDB : TruthDB :=
  ⟨fun _ => [], fun _ => [], fun _ => [], fun _ => [], fun _ => [], fun _ => []⟩

/-- `determine_risk_level` answers HIGH exactly on scores of at least 61. -/
theorem determine_risk_level_eq_high_iff (score : ℕ) :
    determine_risk_level score = "HIGH" ↔ 61 ≤ score := by
  unfold determine_risk_level
  split_ifs with h1 h2
  · exact iff_of_true rfl h1
  · exact iff_of_false (by decide) h1
  · exact iff_of_false (by decide) h1

/-! ## Claim C3 -/

/-- **C3.** For every database state, taxpayer id and declared income, the
audit pipeline persists an audit case iff the computed risk level is HIGH,
iff the computed risk score is at least 61; and the returned
`audit_case_created` flag agrees with the persistence effect (MEDIUM and LOW
outcomes are returned but never stored). -/
theorem run_full_risk_analysis_persists_iff_high (db : TruthDB)
    (kra_pin : String) (declared_income : ℚ) :
    ((run_full_risk_analysis db kra_pin declared_income).stored_cases ≠ [] ↔
      (run_full_risk_analysis db kra_pin declared_income).risk_level = "HIGH") ∧
    ((run_full_risk_analysis db kra_pin declared_income).risk_level = "HIGH" ↔
      61 ≤ (run_full_risk_analysis db kra_pin declared_income).risk_score) ∧
    ((run_full_risk_analysis db kra_pin declared_income).audit_case_created = true ↔
      (run_full_risk_analysis db kra_pin declared_income).stored_cases ≠ []) := by
  by_cases h : (build_wealth_profile db kra_pin).has_any_data = false
  · simp [run_full_risk_analysis, h]
  · by_cases hH : determine_risk_level
        (calculate_risk_score declared_income
          (calculate_inferred_income (build_wealth_profile db kra_pin))
          (build_wealth_profile db kra_pin)) = "HIGH"
    · simp [run_full_risk_analysis, h, create_audit_case_if_risky, hH,
        (determine_risk_level_eq_high_iff _).mp hH]
    · have h61 : ¬ 61 ≤ calculate_risk_score declared_income
          (calculate_inferred_income (build_wealth_profile db kra_pin))
          (build_wealth_profile db kra_pin) :=
        fun hc => hH ((determine_risk_level_eq_high_iff _).mpr hc)
      simp [run_full_risk_analysis, h, create_audit_case_if_risky, hH, h61]

/-! ## Claim C8 -/

/-- **C8.** For every taxpayer id and declared income, if all six truth-data
source summaries report `has_data = false`, then the wealth profile's
`has_any_data` flag is false and the risk run returns score 0 and level LOW,
and creates no audit case. -/
theorem run_full_risk_analysis_no_data (db : TruthDB) (kra_pin : String)
    (declared_income : ℚ)
    (h1 : (fetch_bank_data db kra_pin).has_data = false)
    (h2 : (fetch_mpesa_data db kra_pin).has_data = false)
    (h3 : (fetch_vehicle_data db kra_pin).has_data = false)
    (h4 : (fetch_property_data db kra_pin).has_data = false)
    (h5 : (fetch_import_data db kra_pin).has_data = false)
    (h6 : (fetch_telco_data db kra_pin).has_data = false) :
    (build_wealth_profile db kra_pin).has_any_data = false ∧
    (run_full_risk_analysis db kra_pin declared_income).risk_score = 0 ∧
    (run_full_risk_analysis db kra_pin declared_income).risk_level = "LOW" ∧
    (run_full_risk_analysis db kra_pin declared_income).audit_case_created = false ∧
    (run_full_risk_analysis db kra_pin declared_income).stored_cases = [] := by
  have hprof : (build_wealth_profile db kra_pin).has_any_data = false := by
    simp [build_wealth_profile, h1, h2, h3, h4, h5, h6]
  exact ⟨hprof, by simp [run_full_risk_analysis, hprof]⟩

/-- Witness for C8: the empty store, taxpayer "A000000000P", income 500000. -/
theorem run_full_risk_analysis_no_data_witness :
    (run_full_risk_analysis emptyTruthDB "A000000000P" 500000).risk_score = 0 ∧
    (run_full_risk_analysis emptyTruthDB "A000000000P" 500000).risk_level = "LOW" ∧
    (run_full_risk_analysis emptyTruthDB "A000000000P" 500000).audit_case_created = false :=
  have h := run_full_risk_analysis_no_data emptyTruthDB "A000000000P" 500000
    rfl rfl rfl rfl rfl rfl
  ⟨h.2.1, h.2.2.1, h.2.2.2.1⟩

/-! ## Claim C4 -/

/-- The discrepancy-percentage tier of the score is monotone. -/
theorem discrepancy_tier_mono {p q : ℚ} (h : p ≤ q) :
    (if p > 200 then (40 : ℕ) else if p > 100 then 30 else if p > 50 then 20
      else if p > 20 then 10 else 0) ≤
    (if q > 200 then (40 : ℕ) else if q > 100 then 30 else if q > 50 then 20
      else if q > 20 then 10 else 0) := by
  split_ifs <;> first | omega | linarith

/-- The two-threshold asset tiers (vehicles, properties) are monotone in the
asset value, for any fixed count-based fallback of at most 15 points. -/
theorem value_tier_mono {v w t1 t2 : ℚ} (h : v ≤ w) {other : ℕ}
    (hother : other ≤ 15) :
    (if v > t1 then (25 : ℕ) else if v > t2 then 15 else other) ≤
    (if w > t1 then (25 : ℕ) else if w > t2 then 15 else other) := by
  split_ifs <;> first | omega | linarith

/-- **C4.** The risk score is monotone non-decreasing when the discrepancy
percentage rises (raising inferred income with declared income fixed and
positive), when the vehicle total value rises, when the property total value
rises, and when the import total value rises, all other inputs held fixed;
and every score lies in [0, 100]. -/
theorem calculate_risk_score_monotone_and_bounded :
    (∀ (declared inferred inferred' : ℚ) (assets : WealthProfile),
      0 < declared → inferred ≤ inferred' →
      calculate_risk_score declared inferred assets ≤
        calculate_risk_score declared inferred' assets) ∧
    (∀ (declared inferred : ℚ) (assets : WealthProfile) (v v' : ℚ), v ≤ v' →
      calculate_risk_score declared inferred
          {assets with vehicles := {assets.vehicles with total_value := v}} ≤
        calculate_risk_score declared inferred
          {assets with vehicles := {assets.vehicles with total_value := v'}}) ∧
    (∀ (declared inferred : ℚ) (assets : WealthProfile) (v v' : ℚ), v ≤ v' →
      calculate_risk_score declared inferred
          {assets with properties := {assets.properties with total_value := v}} ≤
        calculate_risk_score declared inferred
          {assets with properties := {assets.properties with total_value := v'}}) ∧
    (∀ (declared inferred : ℚ) (assets : WealthProfile) (v v' : ℚ), v ≤ v' →
      calculate_risk_score declared inferred
          {assets with imports := {assets.imports with total_value := v}} ≤
        calculate_risk_score declared inferred
          {assets with imports := {assets.imports with total_value := v'}}) ∧
    (∀ (declared inferred : ℚ) (assets : WealthProfile),
      0 ≤ calculate_risk_score declared inferred assets ∧
        calculate_risk_score declared inferred assets ≤ 100) := by
  refine ⟨?_, ?_, ?_, ?_, ?_⟩
  · intro d i i' a hd hii
    have hp : (i - d) / d * 100 ≤ (i' - d) / d * 100 := by gcongr
    have hT := discrepancy_tier_mono hp
    simp only [calculate_risk_score]
    rw [if_pos hd, if_pos hd,
      if_neg (show ¬(d = 0 ∧ i > 1000000) from fun hc => (ne_of_gt hd) hc.1),
      if_neg (show ¬(d = 0 ∧ i' > 1000000) from fun hc => (ne_of_gt hd) hc.1)]
    exact min_le_min (by omega) le_rfl
  · intro d i a v v' hv
    have hV : (if v > 20000000 then (25 : ℕ) else if v > 10000000 then 15
          else if a.vehicles.vehicle_count ≥ 2 then 10 else 0) ≤
        (if v' > 20000000 then (25 : ℕ) else if v' > 10000000 then 15
          else if a.vehicles.vehicle_count ≥ 2 then 10 else 0) :=
      value_tier_mono hv (by split_ifs <;> omega)
    simp only [calculate_risk_score]
    by_cases hdat : a.vehicles.has_data = true
    · rw [if_pos hdat, if_pos hdat]
      exact min_le_min (by omega) le_rfl
    · rw [if_neg hdat, if_neg hdat]
  · intro d i a v v' hv
    have hP : (if v > 50000000 then (25 : ℕ) else if v > 20000000 then 15
          else if a.properties.property_count ≥ 3 then 10 else 0) ≤
        (if v' > 50000000 then (25 : ℕ) else if v' > 20000000 then 15
          else if a.properties.property_count ≥ 3 then 10 else 0) :=
      value_tier_mono hv (by split_ifs <;> omega)
    simp only [calculate_risk_score]
    by_cases hdat : a.properties.has_data = true
    · rw [if_pos hdat, if_pos hdat]
      exact min_le_min (by omega) le_rfl
    · rw [if_neg hdat, if_neg hdat]
  · intro d i a v v' hv
    have hI : (if v > 5000000 then (15 : ℕ) else 0) ≤
        (if v' > 5000000 then (15 : ℕ) else 0) := by
      split_ifs <;> first | omega | linarith
    simp only [calculate_risk_score]
    by_cases hdat : a.imports.has_data = true
    · rw [if_pos hdat, if_pos hdat]
      exact min_le_min (by omega) le_rfl
    · rw [if_neg hdat, if_neg hdat]
  · intro d i a
    exact ⟨Nat.zero_le _, by simp only [calculate_risk_score]; exact min_le_right _ _⟩

/-- Witness for C4: concrete monotone pairs and the bound, at the no-data
profile with declared income 100. -/
theorem calculate_risk_score_monotone_and_bounded_witness :
    calculate_risk_score 100 150 noDataProfile ≤
      calculate_risk_score 100 500 noDataProfile ∧
    calculate_risk_score 100 150
        {noDataProfile with vehicles := {noDataProfile.vehicles with total_value := 5}} ≤
      calculate_risk_score 100 150
        {noDataProfile with vehicles := {noDataProfile.vehicles with total_value := 30000000}} ∧
    calculate_risk_score 0 2000000 noDataProfile ≤ 100 :=
  ⟨calculate_risk_score_monotone_and_bounded.1 100 150 500 noDataProfile
      (by norm_num) (by norm_num),
   calculate_risk_score_monotone_and_bounded.2.1 100 150 noDataProfile 5 30000000
      (by norm_num),
   (calculate_risk_score_monotone_and_bounded.2.2.2.2 0 2000000 noDataProfile).2⟩

/-! ## Claim C5 -/

/-- **C5.** In `detect_discrepancy`, the discrepancy is inferred minus
declared, and the percentage is `discrepancy / declared * 100` for positive
declared income and exactly `100` when declared income is zero, for every
inferred income; the computation is total (no division by zero is taken). -/
theorem detect_discrepancy_percentage_spec (declared inferred : ℚ) :
    (detect_discrepancy declared inferred).discrepancy_amount = inferred - declared ∧
    (0 < declared →
      (detect_discrepancy declared inferred).discrepancy_percentage =
        (inferred - declared) / declared * 100) ∧
    (declared = 0 →
      (detect_discrepancy declared inferred).discrepancy_percentage = 100) := by
  refine ⟨rfl, fun h => ?_, fun h => ?_⟩
  · simp [detect_discrepancy, if_pos h]
  · subst h
    simp [detect_discrepancy]

/-- Witness for C5 at declared = 0, inferred = 5,000,000 and at
declared = 100, inferred = 300. -/
theorem detect_discrepancy_percentage_spec_witness :
    (detect_discrepancy 0 5000000).discrepancy_percentage = 100 ∧
    (detect_discrepancy 100 300).discrepancy_percentage = (300 - 100) / 100 * 100 :=
  ⟨(detect_discrepancy_percentage_spec 0 5000000).2.2 rfl,
   (detect_discrepancy_percentage_spec 100 300).2.1 (by norm_num)⟩

/-! ## Collected answers

A completed session's collected answers: section id → field name → value.
Absent entries are `PyVal.none`; the engines read every field through
`safe_float`, which maps an absent entry to `0` exactly as the Python
`collected_data.get(section, {}).get(field, 0)` default does. -/

def CollectedData : Type := String → String → PyVal

/-! ## IT1 tax computation engine (`it1_tools.py`, Section T) -/

structure TaxComputation where
  total_income : ℚ
  taxable_income : ℚ
  tax_payable : ℚ
  tax_after_reliefs : ℚ
  total_credits : ℚ
  final_tax_due_or_refund : ℚ
  status : String

/-- `IT1FilingTools.section_t_tax_computation`.  The Python decimal literals
0.10, 0.25, 0.30 are the exact rationals 10/100, 25/100, 30/100. -/
def section_t_tax_computation (cd : CollectedData) : TaxComputation :=
  let total_income := safe_float (cd "F" "gross_pay") + safe_float (cd "F" "allowances") +
    safe_float (cd "F" "car_benefit_value") + safe_float (cd "F" "housing_value") +
    safe_float (cd "F2" "gross_amount") + safe_float (cd "H" "estate_income_amount")
  let pension_deduction := safe_float (cd "F" "pension_excess")
  let mortgage_interest := safe_float (cd "J" "interest_paid")
  let hosp_deposit := min (safe_float (cd "K" "hosp_deposit")) 96000
  let relief_deduction := max mortgage_interest hosp_deposit
  let taxable_income := total_income - pension_deduction - relief_deduction
  let tax_payable :=
    if taxable_income ≤ 288000 then taxable_income * (10 / 100)
    else if taxable_income ≤ 388000 then
      288000 * (10 / 100) + (taxable_income - 288000) * (25 / 100)
    else
      288000 * (10 / 100) + 100000 * (25 / 100) + (taxable_income - 388000) * (30 / 100)
  let personal_relief : ℚ := 28800
  let insurance_relief := min (safe_float (cd "L" "insurance_relief")) 60000
  let tax_after_reliefs := max (tax_payable - personal_relief - insurance_relief) 0
  let total_credits := safe_float (cd "M" "paye_deducted") +
    safe_float (cd "N" "amount_paid") + safe_float (cd "O" "wht_amount") +
    safe_float (cd "P" "advance_tax_paid") + safe_float (cd "Q" "amount_paid") +
    safe_float (cd "R" "dtaa_relief_amount")
  let final_amount := tax_after_reliefs - total_credits
  ⟨total_income, taxable_income, tax_payable, tax_after_reliefs, total_credits,
    final_amount, if final_amount > 0 then "TAX_DUE" else "REFUND_DUE"⟩

/-! ## VAT3 computation engine (`vat3_tools.py`, Sections M, N, O) -/

structure VatSalesSummary where
  taxable_sales : ℚ
  zero_rated_sales : ℚ
  exempt_sales : ℚ
  total_sales : ℚ
  output_vat_16 : ℚ
  output_vat_8 : ℚ
  total_output_vat : ℚ

/-- `VAT3FilingTools.section_m_sales_summary`. -/
def section_m_sales_summary (cd : CollectedData) : VatSalesSummary :=
  let vat_b_value := safe_float (cd "VAT_B" "taxable_value")
  let vat_c_value := safe_float (cd "VAT_C" "taxable_value")
  let vat_d_local := safe_float (cd "VAT_D" "local_value")
  let vat_d_export := safe_float (cd "VAT_D" "export_value")
  let vat_e_value := safe_float (cd "VAT_E" "exempt_sales_value")
  let taxable_sales := vat_b_value + vat_c_value
  let zero_rated_sales := vat_d_local + vat_d_export
  let exempt_sales := vat_e_value
  let total_sales := taxable_sales + zero_rated_sales + exempt_sales
  let output_vat_16 := vat_b_value * (16 / 100)
  let output_vat_8 := vat_c_value * (8 / 100)
  ⟨taxable_sales, zero_rated_sales, exempt_sales, total_sales, output_vat_16,
    output_vat_8, output_vat_16 + output_vat_8⟩

structure VatPurchaseSummary where
  taxable_purchases : ℚ
  zero_rated_purchases : ℚ
  exempt_purchases : ℚ
  total_purchases : ℚ
  input_vat_16 : ℚ
  input_vat_8 : ℚ
  total_input_vat : ℚ

/-- `VAT3FilingTools.section_n_purchase_summary`. -/
def section_n_purchase_summary (cd : CollectedData) : VatPurchaseSummary :=
  let vat_f_value := safe_float (cd "VAT_F" "taxable_value")
  let vat_g_value := safe_float (cd "VAT_G" "taxable_value")
  let vat_h_value := safe_float (cd "VAT_H" "taxable_value")
  let vat_i_registered := safe_float (cd "VAT_I" "registered_purchases")
  let vat_i_import := safe_float (cd "VAT_I" "import_purchases")
  let vat_i_no_vat := safe_float (cd "VAT_I" "no_vat_purchases")
  let taxable_purchases := vat_f_value + vat_g_value
  let zero_rated_purchases := vat_h_value
  let exempt_purchases := vat_i_registered + vat_i_import + vat_i_no_vat
  let total_purchases := taxable_purchases + zero_rated_purchases + exempt_purchases
  let input_vat_16 := vat_f_value * (16 / 100)
  let input_vat_8 := vat_g_value * (8 / 100)
  ⟨taxable_purchases, zero_rated_purchases, exempt_purchases, total_purchases,
    input_vat_16, input_vat_8, input_vat_16 + input_vat_8⟩

structure VatCalculation where
  output_vat : ℚ
  input_vat : ℚ
  imported_services_vat : ℚ
  non_deductible_input_vat : ℚ
  deductible_input_vat : ℚ
  vat_payable_credit : ℚ
  credit_brought_forward : ℚ
  wht_credits : ℚ
  vat_paid : ℚ
  net_vat_payable_credit : ℚ
  status : String

/-- `VAT3FilingTools.section_o_calculation`. -/
def section_o_calculation (cd : CollectedData) : VatCalculation :=
  let sales_summary := section_m_sales_summary cd
  let purchase_summary := section_n_purchase_summary cd
  let output_vat := sales_summary.total_output_vat
  let input_vat := purchase_summary.total_input_vat
  let imported_services_vat := safe_float (cd "VAT_J" "vat_claimable")
  let total_sales := sales_summary.total_sales
  let exempt_sales := sales_summary.exempt_sales
  let non_deductible_input_vat :=
    if total_sales > 0 then input_vat * (exempt_sales / total_sales) else 0
  let deductible_input_vat := input_vat - non_deductible_input_vat + imported_services_vat
  let vat_payable_credit := output_vat - deductible_input_vat
  let credit_brought_forward : ℚ := 0
  let wht_credits := safe_float (cd "VAT_L" "vat_withheld")
  let advance_payment := safe_float (cd "VAT_K" "advance_payment_amount")
  let self_assessment := safe_float (cd "VAT_K" "self_assessment_amount")
  let credit_adjustment := safe_float (cd "VAT_K" "credit_adjustment_amount")
  let vat_paid := advance_payment + self_assessment + credit_adjustment
  let net_vat := vat_payable_credit + credit_brought_forward - wht_credits - vat_paid
  ⟨output_vat, input_vat, imported_services_vat, non_deductible_input_vat,
    deductible_input_vat, vat_payable_credit, credit_brought_forward, wht_credits,
    vat_paid, net_vat, if net_vat > 0 then "VAT_PAYABLE" else "CREDIT_CARRIED_FORWARD"⟩

/-! ## Claim C1 -/

/-- The collected-answers map of claim C1: gross pay 1,000,000 and pension
excess 0 in section F, insurance relief 60,000 in section L, PAYE deducted
150,000 in section M; everything else absent. -/
def c1CollectedData : CollectedData := fun sec field =>
  if sec = "F" ∧ field = "gross_pay" then .num 1000000
  else if sec = "F" ∧ field = "pension_excess" then .num 0
  else if sec = "L" ∧ field = "insurance_relief" then .num 60000
  else if sec = "M" ∧ field = "paye_deducted" then .num 150000
  else .none

/-- **C1.** On the C1 answers the IT1 engine returns taxable income
1,000,000, tax payable 237,400, tax after reliefs 148,600, total credits
150,000 and final amount −1,400 with refund-due status. -/
theorem section_t_tax_computation_c1 :
    (section_t_tax_computation c1CollectedData).taxable_income = 1000000 ∧
    (section_t_tax_computation c1CollectedData).tax_payable = 237400 ∧
    (section_t_tax_computation c1CollectedData).tax_after_reliefs = 148600 ∧
    (section_t_tax_computation c1CollectedData).total_credits = 150000 ∧
    (section_t_tax_computation c1CollectedData).final_tax_due_or_refund = -1400 ∧
    (section_t_tax_computation c1CollectedData).status = "REFUND_DUE" := by
  refine ⟨?_, ?_, ?_, ?_, ?_, ?_⟩ <;>
    simp [section_t_tax_computation, c1CollectedData, safe_float, min_def, max_def] <;>
    norm_num

/-! ## Claim C2 -/

/-- The collected-answers map of claim C2: taxable value 1,000,000 in
section VAT_B (16% sales) and taxable value 600,000 in section VAT_F
(16% purchases); everything else absent. -/
def c2CollectedData : CollectedData := fun sec field =>
  if sec = "VAT_B" ∧ field = "taxable_value" then .num 1000000
  else if sec = "VAT_F" ∧ field = "taxable_value" then .num 600000
  else .none

/-- **C2.** On the C2 answers the VAT engine returns output VAT 160,000,
input VAT 96,000, non-deductible input VAT 0, deductible input VAT 96,000
and net VAT 64,000 with payable status. -/
theorem section_o_calculation_c2 :
    (section_o_calculation c2CollectedData).output_vat = 160000 ∧
    (section_o_calculation c2CollectedData).input_vat = 96000 ∧
    (section_o_calculation c2CollectedData).non_deductible_input_vat = 0 ∧
    (section_o_calculation c2CollectedData).deductible_input_vat = 96000 ∧
    (section_o_calculation c2CollectedData).net_vat_payable_credit = 64000 ∧
    (section_o_calculation c2CollectedData).status = "VAT_PAYABLE" := by
  refine ⟨?_, ?_, ?_, ?_, ?_, ?_⟩ <;>
    simp [section_o_calculation, section_m_sales_summary, section_n_purchase_summary,
      c2CollectedData, safe_float, min_def, max_def] <;>
    norm_num

/-! ## Guardrail validators (`validation_tools.py`) -/

/-- Python `re.match(r'^A\d{9}P$', pin)`: the char at index 0 is the letter A,
the next nine chars are decimal digits, the char at index 10 is the letter P,
and the dollar anchor matches at the end of the string or just before one
trailing newline (CPython `$` semantics in non-MULTILINE mode). -/
def kraMatchList : List Char → Bool
  | c0 :: c1 :: c2 :: c3 :: c4 :: c5 :: c6 :: c7 :: c8 :: c9 :: c10 :: rest =>
      c0 == 'A' && c1.isDigit && c2.isDigit && c3.isDigit && c4.isDigit && c5.isDigit &&
      c6.isDigit && c7.isDigit && c8.isDigit && c9.isDigit && c10 == 'P' &&
      (rest == [] || rest == ['\n'])
  | _ => false

structure PinResult where
  valid : Bool
  pin : Option String
  error : Option String
deriving DecidableEq

/-- `validate_kra_pin`. -/
def validate_kra_pin (pin : String) : PinResult :=
  let is_valid := kraMatchList pin.data
  ⟨is_valid, if is_valid then some pin else Option.none,
    if is_valid then Option.none
    else some "Invalid KRA PIN format. Expected format: A#########P"⟩

/-- The accepted language asserted by claim C9 (and §4.1 of the spec), taken
at its word: any letter, nine digits, then any letter. -/
def letterNineDigitsLetterShape : List Char → Bool
  | [c0, c1, c2, c3, c4, c5, c6, c7, c8, c9, c10] =>
      c0.isAlpha && c1.isDigit && c2.isDigit && c3.isDigit && c4.isDigit && c5.isDigit &&
      c6.isDigit && c7.isDigit && c8.isDigit && c9.isDigit && c10.isAlpha
  | _ => false

/-- The accepted language of the implementation, stated independently of the
matcher: the literal letter A, nine digits and the literal letter P, with the
Python dollar anchor also admitting one trailing newline. -/
def KraShapeAmended (cs : List Char) : Prop :=
  (cs.length = 11 ∧ cs.take 1 = ['A'] ∧ (∀ c ∈ (cs.drop 1).take 9, c.isDigit = true) ∧
    cs.drop 10 = ['P']) ∨
  (cs.length = 12 ∧ cs.take 1 = ['A'] ∧ (∀ c ∈ (cs.drop 1).take 9, c.isDigit = true) ∧
    cs.drop 10 = ['P', '\n'])

/-! ## Claim C9 -/

/-- **C9, as stated, is false**: "B123456789C" has the one-letter,
nine-digits, one-letter shape the claim says is exactly accepted, yet the
validator rejects it (the pattern anchors on the literal letters A and P). -/
theorem validate_kra_pin_c9_counterexample :
    letterNineDigitsLetterShape "B123456789C".data = true ∧
    (validate_kra_pin "B123456789C").valid = false := by
  decide

/-- The regex matcher accepts exactly the amended shape. -/
theorem kraMatchList_iff (cs : List Char) :
    kraMatchList cs = true ↔ KraShapeAmended cs := by
  rcases cs with _ | ⟨c0, _ | ⟨c1, _ | ⟨c2, _ | ⟨c3, _ | ⟨c4, _ | ⟨c5, _ | ⟨c6, _ |
    ⟨c7, _ | ⟨c8, _ | ⟨c9, _ | ⟨c10, _ | ⟨r, rs⟩⟩⟩⟩⟩⟩⟩⟩⟩⟩⟩⟩ <;>
    simp [kraMatchList, KraShapeAmended] <;>
    tauto

/-- **C9 (amended).** The identifier validator accepts exactly the strings
of shape: the literal letter A, nine digits, the literal letter P (with the
Python dollar anchor also admitting a single trailing newline), and rejects
every other string with the format error. -/
theorem validate_kra_pin_amended (s : String) :
    ((validate_kra_pin s).valid = true ↔ KraShapeAmended s.data) ∧
    ((validate_kra_pin s).valid = false →
      (validate_kra_pin s).error =
        some "Invalid KRA PIN format. Expected format: A#########P") := by
  constructor
  · simpa [validate_kra_pin] using kraMatchList_iff s.data
  · intro h
    simp only [validate_kra_pin] at h ⊢
    simp [h]

/-- Witness for C9 (amended) at the accepted "A123456789P" and the rejected
"B123456789C". -/
theorem validate_kra_pin_amended_witness :
    KraShapeAmended "A123456789P".data ∧
    (validate_kra_pin "B123456789C").error =
      some "Invalid KRA PIN format. Expected format: A#########P" :=
  ⟨(validate_kra_pin_amended "A123456789P").1.mp (by decide),
   (validate_kra_pin_amended "B123456789C").2 (by decide)⟩

/-! ## Claim C10 -/

structure SanitizeResult where
  valid : Bool
  value : Option ℚ
  error : Option String
deriving DecidableEq

/-- `sanitize_financial_input`: strip every character other than decimal
digits and the dot (the regex `[^\d.]` substitution), parse with `float`,
reject negative values, else accept. -/
def sanitize_financial_input (amount : String) : SanitizeResult :=
  let cleaned := amount.data.filter (fun c => c.isDigit || c == '.')
  match pyFloatDigits cleaned with
  | Option.none => ⟨false, Option.none, some "Invalid amount format"⟩
  | some value =>
    if value < 0 then ⟨false, Option.none, some "Amount cannot be negative"⟩
    else ⟨true, some value, Option.none⟩

/-- A successful digits-and-dot parse is never negative. -/
theorem pyFloatDigits_nonneg {cs : List Char} {q : ℚ}
    (h : pyFloatDigits cs = some q) : 0 ≤ q := by
  unfold pyFloatDigits at h
  split_ifs at h with hc
  simp only [Option.some.injEq] at h
  subst h
  apply Rat.divInt_nonneg <;> positivity

/-- **C10.** `sanitize_financial_input` is total: for every input string it
either accepts with a non-negative value or returns the unparsable-format
error; the negative-amount branch is unreachable (the minus sign is stripped
before parsing), and "-500" is accepted with value 500. -/
theorem sanitize_financial_input_c10 (s : String) :
    ((sanitize_financial_input s).error ≠ some "Amount cannot be negative") ∧
    ((sanitize_financial_input s).valid = true →
      ∃ v, (sanitize_financial_input s).value = some v ∧ 0 ≤ v) ∧
    ((sanitize_financial_input s).valid = false →
      (sanitize_financial_input s).error = some "Invalid amount format") ∧
    (sanitize_financial_input "-500").valid = true ∧
    (sanitize_financial_input "-500").value = some 500 := by
  refine ⟨?_, ?_, ?_, by decide, by decide⟩ <;>
    rcases h : pyFloatDigits (s.data.filter (fun c => c.isDigit || c == '.')) with _ | v
  · simp [sanitize_financial_input, h]
  · have hv := pyFloatDigits_nonneg h
    simp [sanitize_financial_input, h, not_lt.mpr hv]
  · simp [sanitize_financial_input, h]
  · have hv := pyFloatDigits_nonneg h
    intro hvalid
    refine ⟨v, ?_, hv⟩
    simp [sanitize_financial_input, h, not_lt.mpr hv]
  · simp [sanitize_financial_input, h]
  · have hv := pyFloatDigits_nonneg h
    simp [sanitize_financial_input, h, not_lt.mpr hv]

/-- Witness for C10 at the input "KES 1,250.50". -/
theorem sanitize_financial_input_c10_witness :
    (sanitize_financial_input "KES 1,250.50").error ≠ some "Amount cannot be negative" ∧
    ((sanitize_financial_input "KES 1,250.50").valid = true →
      ∃ v, (sanitize_financial_input "KES 1,250.50").value = some v ∧ 0 ≤ v) :=
  ⟨(sanitize_financial_input_c10 "KES 1,250.50").1,
   (sanitize_financial_input_c10 "KES 1,250.50").2.1⟩

/-! ## Python string primitives

The Python string methods the workflow layer uses — `.strip()`, `.lower()`,
`.startswith()`, `in`, `.split('-')` — are modelled structurally over
`List Char`, so that every theorem about them evaluates in the kernel. -/

/-- The whitespace characters Python `str.strip()` removes. -/
def pyIsSpace (c : Char) : Bool :=
  c == ' ' || c == '\t' || c == '\n' || c == '\x0d' || c == '\x0b' || c == '\x0c'

/-- Python `str.strip()` on the character list. -/
def pyStripList (cs : List Char) : List Char :=
  ((cs.dropWhile pyIsSpace).reverse.dropWhile pyIsSpace).reverse

/-- Python `str.lower()` (ASCII letters, the only ones these fields hold). -/
def pyLower (s : String) : String :=
  String.mk (s.data.map Char.toLower)

/-- Python `str.strip().lower()`, the combination every flag check uses. -/
def pyStripLower (s : String) : String :=
  String.mk ((pyStripList s.data).map Char.toLower)

/-- Whether `pat` is a prefix of `cs`. -/
def listHeadMatches : List Char → List Char → Bool
  | [], _ => true
  | _ :: _, [] => false
  | p :: ps, c :: cs => p == c && listHeadMatches ps cs

/-- Python `str.startswith(pat)`. -/
def pyStartsWith (s pat : String) : Bool :=
  listHeadMatches pat.data s.data

/-- Whether `pat` occurs as a contiguous run of `cs`. -/
def listContainsB (pat : List Char) : List Char → Bool
  | [] => listHeadMatches pat []
  | c :: cs => listHeadMatches pat (c :: cs) || listContainsB pat cs

/-- Python substring membership `pat in name`. -/
def pyContains (name pat : String) : Bool :=
  listContainsB pat.data name.data

/-- Python `str.split(sep)` for a one-character separator. -/
def splitOnChar (sep : Char) : List Char → List (List Char)
  | [] => [[]]
  | c :: cs =>
    let r := splitOnChar sep cs
    if c == sep then [] :: r
    else
      match r with
      | [] => [[c]]
      | h :: t => (c :: h) :: t

/-! ## Date validation (`validate_date_input`, used by `validate_response`) -/

/-- The ten-character body of the pattern: four digits, dash, two digits,
dash, two digits. -/
def dateCore : List Char → Bool
  | [y1, y2, y3, y4, d1, m1, m2, d2, n1, n2] =>
      y1.isDigit && y2.isDigit && y3.isDigit && y4.isDigit && d1 == '-' &&
      m1.isDigit && m2.isDigit && d2 == '-' && n1.isDigit && n2.isDigit
  | _ => false

/-- Python `re.match` of the anchored date pattern; as for the PIN pattern,
the dollar anchor also matches just before one trailing newline. -/
def dateMatchList (cs : List Char) : Bool :=
  dateCore cs || (cs.getLast? == some '\n' && dateCore cs.dropLast)

/-- Python `int()` on a split date part: surrounding whitespace stripped,
then one or more decimal digits (the only successful shapes reachable from
the date path; other strings raise `ValueError`, modelled as `none`). -/
def pyIntList (cs : List Char) : Option ℤ :=
  let t := pyStripList cs
  if t ≠ [] ∧ t.all Char.isDigit = true then some (digitsToNat t : ℤ)
  else Option.none

structure DateResult where
  valid : Bool
  date : Option String
  error : Option String
deriving DecidableEq

/-- `validate_date_input`: pattern check, then bounds on the three
`int`-parsed components of `date_string.split('-')`; a failed parse or a
wrong number of parts is the `ValueError` branch. -/
def validate_date_input (date_string : String) : DateResult :=
  if dateMatchList date_string.data = false then
    ⟨false, Option.none, some "Invalid date format. Expected YYYY-MM-DD"⟩
  else
    match (splitOnChar '-' date_string.data).map pyIntList with
    | [some year, some month, some day] =>
      if ¬(1900 ≤ year ∧ year ≤ 2100) then
        ⟨false, Option.none, some "Year must be between 1900 and 2100"⟩
      else if ¬(1 ≤ month ∧ month ≤ 12) then
        ⟨false, Option.none, some "Month must be between 1 and 12"⟩
      else if ¬(1 ≤ day ∧ day ≤ 31) then
        ⟨false, Option.none, some "Day must be between 1 and 31"⟩
      else ⟨true, some date_string, Option.none⟩
    | _ => ⟨false, Option.none, some "Invalid date values"⟩

/-! ## Field dispatch (`FilingWorkflowAgentADK.validate_response`) -/

/-- The three keys of a validator's result dict that the chainlit caller
reads: `valid`, `value` (absent — `Option.none` — for the branches whose
dict instead carries a `pin` or `date` key; the caller's
`result.get('value', user_input)` then falls back to the raw input) and
`error`. -/
structure ValidationOutcome where
  valid : Bool
  value : Option PyVal
  error : Option String
deriving DecidableEq

/-- `FilingWorkflowAgentADK.validate_response`: dispatch on the field name —
PIN fields pass through, the main `kra_pin` is pattern-checked, boolean
Yes/No flag fields pass through verbatim, monetary fields are sanitised,
date fields validated, everything else passes through. -/
def validate_response (field_name : String) (response : String) : ValidationOutcome :=
  let name := pyLower field_name
  if pyContains name "pin" = true ∧ field_name ≠ "kra_pin" then
    ⟨true, some (.str response), Option.none⟩
  else if field_name = "kra_pin" then
    let r := validate_kra_pin response
    ⟨r.valid, Option.none, r.error⟩
  else if pyStartsWith name "has_" || pyStartsWith name "is_" ||
      pyStartsWith name "paid_" || pyStartsWith name "declare_" ||
      pyStartsWith name "do_you_" || pyStartsWith name "did_you_" then
    ⟨true, some (.str response), Option.none⟩
  else if pyContains name "amount" || pyContains name "pay" ||
      pyContains name "income" || pyContains name "value" ||
      pyContains name "paid" || pyContains name "relief" ||
      pyContains name "deposit" then
    let r := sanitize_financial_input response
    ⟨r.valid, r.value.map PyVal.num, r.error⟩
  else if pyContains name "date" || pyContains name "from" || pyContains name "to" then
    let r := validate_date_input response
    ⟨r.valid, Option.none, r.error⟩
  else ⟨true, some (.str response), Option.none⟩

/-! ## Question scheduling (`FilingWorkflowAgentADK.get_next_question`) -/

structure Question where
  id : String
  text : String
  field : String
deriving DecidableEq

/-- A section definition: the unconditional questions and the map
trigger-field → (trigger value → unlocked questions), transcribed from the
dict literals of the tool classes (the Python `section` key is `sectionId`
here — `section` is a Lean keyword). -/
structure SectionData where
  sectionId : String
  questions : List Question
  conditional_questions : List (String × List (String × List Question))

/-- `IT1FilingTools.section_f_employment_income`. -/
def section_f_employment_income : SectionData :=
  ⟨"F",
    [⟨"q1", "Do you have employment income? (Yes/No)", "has_employment_income"⟩],
    [("has_employment_income",
      [("Yes",
        [⟨"q2", "PIN of employer?", "employer_pin"⟩,
         ⟨"q3", "Name of employer?", "employer_name"⟩,
         ⟨"q4", "Gross pay (KES)?", "gross_pay"⟩,
         ⟨"q5", "Allowances and benefits (excluding car/housing) (KES)?", "allowances"⟩,
         ⟨"q6", "Value of car benefit (KES)?", "car_benefit_value"⟩,
         ⟨"q7", "Net value of housing (KES)?", "housing_value"⟩,
         ⟨"q8", "Pension if in excess of 300,000 (KES)?", "pension_excess"⟩])])]⟩

/-- `FilingWorkflowAgentADK.get_next_question` (the unused `section_name`
parameter of the Python signature is dropped): first unanswered
unconditional question, else scan the conditional map — an entry fires when
its trigger field has a collected value equal (Python `==`, here `BEq` on
`PyVal`) to one of its dict keys — and return its first unanswered question;
`none` when the section is complete. -/
def get_next_question (section_data : SectionData)
    (collected_responses : String → Option PyVal) : Option Question :=
  match section_data.questions.find? (fun q => (collected_responses q.field).isNone) with
  | some q => some q
  | Option.none =>
    section_data.conditional_questions.findSome? (fun cq =>
      match collected_responses cq.1 with
      | some condition_value =>
        match cq.2.find? (fun p => PyVal.str p.1 == condition_value) with
        | some p => p.2.find? (fun q => (collected_responses q.field).isNone)
        | Option.none => Option.none
      | Option.none => Option.none)

/-! ## Section transitions in the chainlit handler (`chainlit_app.py`) -/

/-- The flag test every IT1 section-transition decision point performs:
`collected.get(flag, "").strip().lower() == "yes"` (lines 215, 266, 416,
421, 426 of `chainlit_app.py`). -/
def flagIsYes (answer : Option String) : Bool :=
  pyStripLower (answer.getD "") == "yes"

/-- Completion of A_PART3 (IT1): enter A_PART6 iff the stored
`has_disability` answer passes the flag test, else go to F. -/
def a_part3_next_section (has_disability : Option String) : String :=
  if flagIsYes has_disability then "A_PART6" else "F"

/-- Completion of F (IT1): enter M (PAYE) iff the stored
`has_employment_income` answer passes the flag test, else skip to F2. -/
def section_f_next_section (has_employment_income : Option String) : String :=
  if flagIsYes has_employment_income then "M" else "F2"

/-! ## Claim C6 -/

/-- **C6, as stated, is false**: a stored trigger answer "yes" (a case
variant of "yes") activates the M section transition just as "Yes" does,
but unlocks no conditional question of section F — `get_next_question`
matches the stored answer against the dict key "Yes" case-sensitively, so
only the exact string "Yes" unlocks the in-section conditional questions. -/
theorem get_next_question_c6_counterexample :
    get_next_question section_f_employment_income
        (fun f => if f == "has_employment_income" then some (.str "yes")
          else Option.none) = Option.none ∧
    get_next_question section_f_employment_income
        (fun f => if f == "has_employment_income" then some (.str "Yes")
          else Option.none) = some ⟨"q2", "PIN of employer?", "employer_pin"⟩ ∧
    flagIsYes (some "yes") = true ∧
    flagIsYes (some "Yes") = true := by
  decide

/-- On a section-F response map holding only the trigger answer, the
scheduler unlocks the first conditional question exactly when the stored
answer is the exact string "Yes". -/
theorem get_next_question_f_single (ans : String) :
    get_next_question section_f_employment_income
        (fun f => if f == "has_employment_income" then some (.str ans)
          else Option.none) =
      if ans = "Yes" then some ⟨"q2", "PIN of employer?", "employer_pin"⟩
      else Option.none := by
  by_cases h : ans = "Yes"
  · subst h
    decide
  · rw [if_neg h]
    have hbeq : (PyVal.str "Yes" == PyVal.str ans) = false := by
      simp [Ne.symm h]
    simp [get_next_question, section_f_employment_income, List.find?,
      List.findSome?, hbeq]

/-- **C6 (amended).** Boolean-flag answers are stored verbatim; the
conditional-**section** transitions compare the stored answer
case-insensitively (strip, lowercase, equality with "yes"); but a
conditional in-section **question** unlocks only when the stored answer
equals the trigger key "Yes" exactly (case-sensitively). -/
theorem validate_response_flags_and_unlock_amended :
    (∀ field response : String, pyContains (pyLower field) "pin" = false →
      pyStartsWith (pyLower field) "has_" = true →
      validate_response field response = ⟨true, some (.str response), Option.none⟩) ∧
    (∀ ans : String,
      get_next_question section_f_employment_income
          (fun f => if f == "has_employment_income" then some (.str ans)
            else Option.none) =
        if ans = "Yes" then some ⟨"q2", "PIN of employer?", "employer_pin"⟩
        else Option.none) ∧
    (∀ ans : String, a_part3_next_section (some ans) = "A_PART6" ↔
      pyStripLower ans = "yes") ∧
    (∀ ans : String, section_f_next_section (some ans) = "M" ↔
      pyStripLower ans = "yes") := by
  refine ⟨?_, get_next_question_f_single, ?_, ?_⟩
  · intro field response h1 h2
    have hk : field ≠ "kra_pin" := by
      intro he
      rw [he] at h1
      exact absurd h1 (by decide)
    simp only [validate_response]
    rw [if_neg (by simp [h1]), if_neg hk, if_pos (by simp [h2])]
  · intro ans
    simp only [a_part3_next_section, flagIsYes, Option.getD_some]
    constructor
    · intro hE
      by_contra hne
      rw [if_neg (by simpa using hne)] at hE
      exact absurd hE (by decide)
    · intro h
      rw [if_pos (by simpa using h)]
  · intro ans
    simp only [section_f_next_section, flagIsYes, Option.getD_some]
    constructor
    · intro hM
      by_contra hne
      rw [if_neg (by simpa using hne)] at hM
      exact absurd hM (by decide)
    · intro h
      rw [if_pos (by simpa using h)]

/-- Witness for C6 (amended): the flag field `has_mortgage` stores "Maybe"
verbatim; the stored answer "YES" unlocks no conditional question of F even
though it does activate the M transition. -/
theorem validate_response_flags_and_unlock_amended_witness :
    validate_response "has_mortgage" "Maybe" =
      ⟨true, some (.str "Maybe"), Option.none⟩ ∧
    get_next_question section_f_employment_income
        (fun f => if f == "has_employment_income" then some (.str "YES")
          else Option.none) = Option.none ∧
    section_f_next_section (some "YES") = "M" :=
  ⟨validate_response_flags_and_unlock_amended.1 "has_mortgage" "Maybe"
      (by decide) (by decide),
   by
    have h := validate_response_flags_and_unlock_amended.2.1 "YES"
    rwa [if_neg (by decide)] at h,
   (validate_response_flags_and_unlock_amended.2.2.2 "YES").mpr (by decide)⟩

/-! ## Claim C7 -/

/-- The VAT3 section-completion dispatch of the chainlit handler: for each
completed VAT section, the next section its branch moves the session to
(`none` after VAT_L, whose branch runs the final `section_o_calculation`
and ends the workflow). -/
def vat3SectionAfter (s : String) : Option String :=
  if s = "VAT_A" then some "VAT_B"
  else if s = "VAT_B" then some "VAT_C"
  else if s = "VAT_C" then some "VAT_D"
  else if s = "VAT_D" then some "VAT_E"
  else if s = "VAT_E" then some "VAT_F"
  else if s = "VAT_F" then some "VAT_G"
  else if s = "VAT_G" then some "VAT_H"
  else if s = "VAT_H" then some "VAT_I"
  else if s = "VAT_I" then some "VAT_J"
  else if s = "VAT_J" then some "VAT_K"
  else if s = "VAT_K" then some "VAT_L"
  else Option.none

/-- Whether the branch handling completion of the given VAT section
references the name `cl_user_session` — bound nowhere in `chainlit_app.py`
(every other state write goes through `cl.user_session`) — so executing the
branch raises `NameError`.  Read off the branch bodies: lines 568 (VAT_F),
616/621/622 (VAT_I), 631/632/637/638 (VAT_J), 647/648/653/654 (VAT_K) and
685 (VAT_L). -/
def vat3BranchRaisesNameError (s : String) : Bool :=
  s == "VAT_F" || s == "VAT_I" || s == "VAT_J" || s == "VAT_K" || s == "VAT_L"

/-- **C7 evaluation.** The dispatch table is the claimed linear order
VAT_A → … → VAT_L → computation, but the VAT_F → VAT_G branch (among
others) references the undefined name `cl_user_session` and so raises
`NameError` instead of completing the transition cleanly. -/
theorem vat3_transition_c7_bug :
    List.map vat3SectionAfter
        ["VAT_A", "VAT_B", "VAT_C", "VAT_D", "VAT_E", "VAT_F", "VAT_G", "VAT_H",
          "VAT_I", "VAT_J", "VAT_K", "VAT_L"] =
      [some "VAT_B", some "VAT_C", some "VAT_D", some "VAT_E", some "VAT_F",
        some "VAT_G", some "VAT_H", some "VAT_I", some "VAT_J", some "VAT_K",
        some "VAT_L", Option.none] ∧
    vat3BranchRaisesNameError "VAT_F" = true ∧
    vat3BranchRaisesNameError "VAT_A" = false := by
  decide

end TaxAssistant
